import Mathlib

/-!
Verification of the walrus module-rewriting library against its
natural-language specification.

The configuration record and its setters are embedded directly from
src/src/module/config.rs.  The decoder, encoder, custom-section registry
and code-transform machinery are not shipped under src/ (only their tests
and callers are), so those are modelled from the specification; every such
definition carries a doc comment starting with "Modelled from the spec:".
-/

namespace Walrus

/-- Embedded from src/src/module/config.rs lines 6-15: configuration for a
Module.  Field names follow the Rust struct; the rustc derive of Default
makes every flag false. -/
structure ModuleConfig where
  generate_dwarf : Bool := false
  generate_synthetic_names_for_anonymous_items : Bool := false
  only_stable_features : Bool := false
  skip_strict_validate : Bool := false
  skip_producers_section : Bool := false
  skip_name_section : Bool := false
  preserve_code_transform : Bool := false
deriving DecidableEq, Repr

/-- Embedded from config.rs lines 19-21: ModuleConfig::new, a fresh
configuration with default settings. -/
def ModuleConfig.new : ModuleConfig := {}

/-- Embedded from config.rs lines 29-32: the generate_dwarf setter.  Named
with a set prefix because in Lean the field projection already owns the
source name; the body is exactly the Rust method, which assigns the field
and returns the (mutated-in-place) configuration. -/
def ModuleConfig.set_generate_dwarf (c : ModuleConfig) (generate : Bool) : ModuleConfig :=
  { c with generate_dwarf := generate }

/-- Embedded from config.rs lines 42-45: generate_name_section stores the
negation into skip_name_section. -/
def ModuleConfig.generate_name_section (c : ModuleConfig) (generate : Bool) : ModuleConfig :=
  { c with skip_name_section := !generate }

/-- Embedded from config.rs lines 53-59: the
generate_synthetic_names_for_anonymous_items setter. -/
def ModuleConfig.set_generate_synthetic_names_for_anonymous_items
    (c : ModuleConfig) (generate : Bool) : ModuleConfig :=
  { c with generate_synthetic_names_for_anonymous_items := generate }

/-- Embedded from config.rs lines 70-73: strict_validate stores the
negation into skip_strict_validate. -/
def ModuleConfig.strict_validate (c : ModuleConfig) (strict : Bool) : ModuleConfig :=
  { c with skip_strict_validate := !strict }

/-- Embedded from config.rs lines 82-85: generate_producers_section stores
the negation into skip_producers_section. -/
def ModuleConfig.generate_producers_section (c : ModuleConfig) (generate : Bool) : ModuleConfig :=
  { c with skip_producers_section := !generate }

/-- Embedded from config.rs lines 96-99: the only_stable_features setter. -/
def ModuleConfig.set_only_stable_features (c : ModuleConfig) (only : Bool) : ModuleConfig :=
  { c with only_stable_features := only }

/-- Embedded from config.rs lines 104-107: the preserve_code_transform
setter. -/
def ModuleConfig.set_preserve_code_transform (c : ModuleConfig) (preserve : Bool) : ModuleConfig :=
  { c with preserve_code_transform := preserve }

/-- Embedded from config.rs line 6: derive(Clone) copies every field. -/
def ModuleConfig.clone (c : ModuleConfig) : ModuleConfig :=
  { generate_dwarf := c.generate_dwarf
    generate_synthetic_names_for_anonymous_items :=
      c.generate_synthetic_names_for_anonymous_items
    only_stable_features := c.only_stable_features
    skip_strict_validate := c.skip_strict_validate
    skip_producers_section := c.skip_producers_section
    skip_name_section := c.skip_name_section
    preserve_code_transform := c.preserve_code_transform }

/-- Byte buffers are lists of naturals below 256. -/
abbrev Bytes := List Nat

/-- Modelled from the spec: the raw byte-holder for a custom section whose
concrete type the caller does not know (spec 4.3: a decoded-but-unrecognized
section is stored as a raw byte-holder with its name and byte payload). -/
structure RawSection where
  name : String
  data : Bytes
deriving DecidableEq, Repr

/-- Modelled from the spec: the insertion-ordered custom-section registry
(spec 3, 4.3) keyed primarily by synthetic ID; add always returns a fresh
ID. -/
structure CustomSectionRegistry where
  next_id : Nat := 0
  entries : List (Nat × RawSection) := []
deriving DecidableEq, Repr

/-- Modelled from the spec: add(section) always succeeds and returns a
fresh ID; the entry is appended so iteration preserves insertion order. -/
def CustomSectionRegistry.add (r : CustomSectionRegistry) (s : RawSection) :
    Nat × CustomSectionRegistry :=
  (r.next_id, { next_id := r.next_id + 1, entries := r.entries ++ [(r.next_id, s)] })

/-- Modelled from the spec: get(id) looks an entry up by its synthetic ID. -/
def CustomSectionRegistry.get (r : CustomSectionRegistry) (id : Nat) : Option RawSection :=
  (r.entries.find? (fun p => p.1 == id)).map Prod.snd

/-- Helper for remove_raw: removes the first entry with the given name from
an entry list, returning the removed section and the remaining list. -/
def removeFirstByName : List (Nat × RawSection) → String →
    Option (RawSection × List (Nat × RawSection))
  | [], _ => none
  | p :: rest, n =>
    if p.2.name = n then some (p.2, rest)
    else (removeFirstByName rest n).map (fun q => (q.1, p :: q.2))

/-- Modelled from the spec: remove_raw(name) removes and returns the first
entry matching the name as an opaque byte-holder (spec 4.3). -/
def CustomSectionRegistry.remove_raw (r : CustomSectionRegistry) (n : String) :
    Option (RawSection × CustomSectionRegistry) :=
  (removeFirstByName r.entries n).map
    (fun q => (q.1, { next_id := r.next_id, entries := q.2 }))

/-- Modelled from the spec: iter() yields (id, section) pairs in insertion
order (spec 4.3). -/
def CustomSectionRegistry.iter (r : CustomSectionRegistry) : List (Nat × RawSection) :=
  r.entries

/-- Folds a sequence of add operations over a registry, in order. -/
def addAll (r : CustomSectionRegistry) : List RawSection → CustomSectionRegistry
  | [] => r
  | s :: rest => addAll (r.add s).2 rest

/-- Modelled from the spec: one serialized instruction of a local function
body, abstracted to its encoded byte length together with its original byte
offset in the parsed input when it came from a parse (spec 4.5); an
instruction inserted by the builder has no original offset. -/
structure Instr where
  size : Nat
  input_offset : Option Nat
deriving DecidableEq, Repr

/-- Modelled from the spec: the slice of the Module IR root these claims
need — the configuration it was built with, the custom-section registry,
the flattened instruction stream of its local function bodies, and whether
it was parsed from bytes (spec 3). -/
structure Module where
  config : ModuleConfig
  customs : CustomSectionRegistry
  code : List Instr := []
  parsed_from_bytes : Bool := false
deriving DecidableEq, Repr

/-- Digit loop of the unsigned LEB128 encoding, structurally recursive on a
fuel bound so the kernel can evaluate it; one digit is produced per step
and the value shrinks by a factor of 128, so any fuel of at least one plus
the value is never exhausted. -/
def lebDigits (fuel n : Nat) : Bytes :=
  match fuel with
  | 0 => []
  | fuel + 1 => if n < 128 then [n] else (n % 128 + 128) :: lebDigits fuel (n / 128)

/-- Unsigned LEB128 variable-length integer encoding (spec 6: integers use
a variable-length encoding). -/
def leb128 (n : Nat) : Bytes := lebDigits (n + 1) n

/-- Decodes one unsigned LEB128 integer from the front of a buffer,
returning none on truncated or invalid encodings. -/
def readLeb : Bytes → Option (Nat × Bytes)
  | [] => none
  | b :: rest =>
    if b < 128 then some (b, rest)
    else
      match readLeb rest with
      | none => none
      | some q => some ((b - 128) + 128 * q.1, q.2)

/-- UTF-8 bytes of an ASCII name. -/
def strBytes (s : String) : Bytes := s.data.map Char.toNat

/-- Rebuilds a name string from its bytes. -/
def bytesStr (bs : Bytes) : String := ⟨bs.map Char.ofNat⟩

/-- The fixed 8-byte module header: magic then version. -/
def wasmHeader : Bytes := [0x00, 0x61, 0x73, 0x6d, 0x01, 0x00, 0x00, 0x00]

/-- Modelled from the spec: binary encoding of one custom section — section
id 0, the content size, then the length-prefixed name followed by the raw
payload (spec 6). -/
def encodeCustomSection (s : RawSection) : Bytes :=
  let nameBytes := strBytes s.name
  let content := leb128 nameBytes.length ++ nameBytes ++ s.data
  0 :: (leb128 content.length ++ content)

/-- Serializes a list of registry entries in iteration order. -/
def encodeCustoms : List (Nat × RawSection) → Bytes
  | [] => []
  | p :: rest => encodeCustomSection p.2 ++ encodeCustoms rest

/-- Modelled from the spec: the producers metadata entry identifying this
library, merged in during encode unless disabled (spec 4.1, 4.5). -/
def producersSection : RawSection := ⟨"producers", strBytes "walrus"⟩

/-- Modelled from the spec: Module::emit_wasm serializes the module —
header, then the custom sections in registry iteration order, then the
producers entry unless the configuration skips it (spec 4.5).  This models
the byte-level output for modules without local function bodies, the slice
the byte-level claims exercise. -/
def Module.emit_wasm (m : Module) : Bytes :=
  wasmHeader ++ encodeCustoms m.customs.entries ++
    (if m.config.skip_producers_section then [] else encodeCustomSection producersSection)

/-- Propositional equality on Except results is decidable when it is on
both components, so concrete parse outcomes can be checked by evaluation. -/
instance {ε α : Type} [DecidableEq ε] [DecidableEq α] : DecidableEq (Except ε α) :=
  fun x y =>
    match x, y with
    | .ok a, .ok b =>
      if h : a = b then isTrue (by rw [h])
      else isFalse (by intro hc; cases hc; exact h rfl)
    | .error a, .error b =>
      if h : a = b then isTrue (by rw [h])
      else isFalse (by intro hc; cases hc; exact h rfl)
    | .ok _, .error _ => isFalse (by intro hc; cases hc)
    | .error _, .ok _ => isFalse (by intro hc; cases hc)

/-- Modelled from the spec: a structured decode error carrying offset
context and a chain of causes, innermost first (spec 4.2, 7). -/
structure ParseError where
  offset : Nat
  cause : String
  context : List String
deriving DecidableEq, Repr

/-- The full cause chain of a structured error, innermost cause first. -/
def ParseError.chain (e : ParseError) : List String := e.cause :: e.context

/-- Builds a structured error at an offset, wrapping the innermost cause in
the outermost failed-to-parse context. -/
def mkParseError (offset : Nat) (cause : String) : ParseError :=
  ⟨offset, cause, ["failed to parse module"]⟩

/-- Modelled from the spec: the section-stream loop of the decoder (spec
4.2).  Reads sections in file order; a custom section (id 0) is stored as a
raw byte-holder in the registry; any other recognized section is consumed
by its declared size; truncation and invalid integers produce structured
errors.  The fuel argument bounds the loop; each step consumes at least one
byte so fuel equal to the buffer length suffices. -/
def parseSections (fuel : Nat) (pos : Nat) (bytes : Bytes)
    (reg : CustomSectionRegistry) : Except ParseError CustomSectionRegistry :=
  match fuel, bytes with
  | _, [] => .ok reg
  | 0, _ :: _ => .error (mkParseError pos "section stream did not terminate")
  | fuel + 1, id :: rest =>
    match readLeb rest with
    | none => .error (mkParseError (pos + 1) "invalid or truncated section size integer")
    | some q =>
      if q.1 ≤ q.2.length then
        let content := q.2.take q.1
        let remaining := q.2.drop q.1
        if id = 0 then
          match readLeb content with
          | none => .error (mkParseError (pos + 1) "invalid or truncated name length integer")
          | some w =>
            if w.1 ≤ w.2.length then
              let name := bytesStr (w.2.take w.1)
              let payload := w.2.drop w.1
              parseSections fuel (pos + 1 + q.1) remaining (reg.add ⟨name, payload⟩).2
            else .error (mkParseError (pos + 1) "custom section name out of bounds")
        else
          parseSections fuel (pos + 1 + q.1) remaining reg
      else .error (mkParseError pos "truncated section payload")

/-- Modelled from the spec: ModuleConfig::parse / Module::parse — checks
the header, then decodes the section stream into a Module built with this
configuration; every failure is a structured error value, never a panic
(spec 4.1, 4.2, 7). -/
def parse (cfg : ModuleConfig) (bytes : Bytes) : Except ParseError Module :=
  if bytes.take 8 = wasmHeader then
    (parseSections bytes.length 8 (bytes.drop 8) {}).map
      (fun reg =>
        { config := cfg, customs := reg, code := [], parsed_from_bytes := true })
  else .error (mkParseError 0 "bad magic header or truncated input")

/-- Modelled from the spec: the decoder assigns every instruction of a
parsed code body its byte offset in the input, consecutive instructions
occupying consecutive byte ranges (spec 4.5: original offsets exist because
the module was parsed from bytes). -/
def parsedCode (base : Nat) : List Nat → List Instr
  | [] => []
  | s :: rest => ⟨s, some base⟩ :: parsedCode (base + s) rest

/-- The byte offsets a run of instruction sizes occupies when laid out
consecutively from a base offset. -/
def offsetList (base : Nat) : List Nat → List Nat
  | [] => []
  | s :: rest => base :: offsetList (base + s) rest

/-- Modelled from the spec: the encoder walks the instruction stream
computing each instruction's output offset and records, for every
instruction that has an original input offset, the pair of input offset and
output offset, in serialization order (spec 4.5). -/
def recordTransform (out : Nat) : List Instr → List (Nat × Nat)
  | [] => []
  | i :: rest =>
    match i.input_offset with
    | some off => (off, out) :: recordTransform (out + i.size) rest
    | none => recordTransform (out + i.size) rest

/-- Modelled from the spec: the Code Transform produced by one emit — it is
computed only when transform preservation is enabled and the module was
parsed from bytes, so original offsets exist (spec 3, 4.5). -/
def Module.codeTransform (m : Module) : List (Nat × Nat) :=
  if m.config.preserve_code_transform && m.parsed_from_bytes then
    recordTransform 0 m.code
  else []

/-- Observable events of one emit call concerning custom sections: a
transform delivery to a section's hook, or the appending of that section's
bytes to the output. -/
inductive EmitEvent where
  | hook (id : Nat) (transform : List (Nat × Nat))
  | append (id : Nat)
deriving DecidableEq, Repr

/-- Emits the registered custom sections in iteration order, delivering the
transform to each section's hook right before appending that section's
bytes. -/
def emitLoop (t : List (Nat × Nat)) : List (Nat × RawSection) → List EmitEvent
  | [] => []
  | p :: rest => .hook p.1 t :: .append p.1 :: emitLoop t rest

/-- Modelled from the spec: the custom-section phase of the encoder.  When
a transform was computed it is delivered exactly once to every registered
section's apply_code_transform hook, in registry iteration order, before
that section's bytes are appended; when no transform exists (flag unset or
no code to map) hooks are not invoked (spec 4.3, 4.5). -/
def Module.emitEvents (m : Module) : List EmitEvent :=
  if m.codeTransform.isEmpty then m.customs.entries.map (fun p => .append p.1)
  else emitLoop m.codeTransform m.customs.entries

/-- The hook invocations of an emit-event log, in order, each with the
transform it delivered. -/
def hookCalls : List EmitEvent → List (Nat × List (Nat × Nat))
  | [] => []
  | .hook id t :: rest => (id, t) :: hookCalls rest
  | .append _ :: rest => hookCalls rest

/-- The section id receives the transform before its bytes are appended:
some hook event for the id occurs strictly earlier in the log than an
append event for the same id. -/
def hookBeforeAppend (events : List EmitEvent) (id : Nat) (t : List (Nat × Nat)) : Prop :=
  ∃ l₁ l₂ l₃, events = l₁ ++ EmitEvent.hook id t :: l₂ ++ EmitEvent.append id :: l₃

/-- Updates the first configuration of a pair of independently owned
configurations, leaving the second untouched; explicit state passing for
two Rust values living side by side. -/
def mutateFst (p : ModuleConfig × ModuleConfig) (f : ModuleConfig → ModuleConfig) :
    ModuleConfig × ModuleConfig :=
  (f p.1, p.2)

/-- Updates the second configuration of a pair, leaving the first
untouched. -/
def mutateSnd (p : ModuleConfig × ModuleConfig) (f : ModuleConfig → ModuleConfig) :
    ModuleConfig × ModuleConfig :=
  (p.1, f p.2)

/-- The configuration of the C1 concrete scenario: defaults with the
producers section disabled, as built by the round-trip test. -/
def helloConfig : ModuleConfig := ModuleConfig.generate_producers_section ModuleConfig.new false

/-- The byte payload of the C1 scenario custom section. -/
def helloPayload : Bytes := strBytes "Hello, World!"

/-- The C1 scenario module: built with helloConfig and holding one custom
section named hello carrying helloPayload. -/
def helloModule : Module :=
  { config := helloConfig,
    customs := (CustomSectionRegistry.add {} ⟨"hello", helloPayload⟩).2 }

/-- The bytes the C1 scenario first emits. -/
def helloWasm : Bytes := helloModule.emit_wasm

/-- C6: a configuration created by ModuleConfig::new() has generate_dwarf
off, generate_name_section on (skip_name_section off), synthetic names for
anonymous items off, strict_validate on (skip_strict_validate off),
generate_producers_section on (skip_producers_section off),
only_stable_features off, and preserve_code_transform off. -/
theorem module_config_defaults :
    ModuleConfig.new.generate_dwarf = false ∧
    ModuleConfig.new.skip_name_section = false ∧
    ModuleConfig.new.generate_synthetic_names_for_anonymous_items = false ∧
    ModuleConfig.new.skip_strict_validate = false ∧
    ModuleConfig.new.skip_producers_section = false ∧
    ModuleConfig.new.only_stable_features = false ∧
    ModuleConfig.new.preserve_code_transform = false :=
  ⟨rfl, rfl, rfl, rfl, rfl, rfl, rfl⟩

/-- C8: each of the seven recognized setters, applied to any configuration
with any boolean, assigns exactly the one flag that setter controls (the
name-section, strict-validate and producers setters store the negation into
their skip flag, per the source) and leaves the other six flags unchanged;
being a pure record update it touches no state outside the configuration,
and the returned record is the post-state of the very configuration it was
applied to, which is what chaining on the returned receiver means under
explicit state passing. -/
theorem setter_frame_property (c : ModuleConfig) (b : Bool) :
    ((c.set_generate_dwarf b).generate_dwarf = b ∧
      (c.set_generate_dwarf b).generate_synthetic_names_for_anonymous_items =
        c.generate_synthetic_names_for_anonymous_items ∧
      (c.set_generate_dwarf b).only_stable_features = c.only_stable_features ∧
      (c.set_generate_dwarf b).skip_strict_validate = c.skip_strict_validate ∧
      (c.set_generate_dwarf b).skip_producers_section = c.skip_producers_section ∧
      (c.set_generate_dwarf b).skip_name_section = c.skip_name_section ∧
      (c.set_generate_dwarf b).preserve_code_transform = c.preserve_code_transform) ∧
    ((c.generate_name_section b).skip_name_section = !b ∧
      (c.generate_name_section b).generate_dwarf = c.generate_dwarf ∧
      (c.generate_name_section b).generate_synthetic_names_for_anonymous_items =
        c.generate_synthetic_names_for_anonymous_items ∧
      (c.generate_name_section b).only_stable_features = c.only_stable_features ∧
      (c.generate_name_section b).skip_strict_validate = c.skip_strict_validate ∧
      (c.generate_name_section b).skip_producers_section = c.skip_producers_section ∧
      (c.generate_name_section b).preserve_code_transform = c.preserve_code_transform) ∧
    ((c.set_generate_synthetic_names_for_anonymous_items b).generate_synthetic_names_for_anonymous_items = b ∧
      (c.set_generate_synthetic_names_for_anonymous_items b).generate_dwarf = c.generate_dwarf ∧
      (c.set_generate_synthetic_names_for_anonymous_items b).only_stable_features =
        c.only_stable_features ∧
      (c.set_generate_synthetic_names_for_anonymous_items b).skip_strict_validate =
        c.skip_strict_validate ∧
      (c.set_generate_synthetic_names_for_anonymous_items b).skip_producers_section =
        c.skip_producers_section ∧
      (c.set_generate_synthetic_names_for_anonymous_items b).skip_name_section =
        c.skip_name_section ∧
      (c.set_generate_synthetic_names_for_anonymous_items b).preserve_code_transform =
        c.preserve_code_transform) ∧
    ((c.strict_validate b).skip_strict_validate = !b ∧
      (c.strict_validate b).generate_dwarf = c.generate_dwarf ∧
      (c.strict_validate b).generate_synthetic_names_for_anonymous_items =
        c.generate_synthetic_names_for_anonymous_items ∧
      (c.strict_validate b).only_stable_features = c.only_stable_features ∧
      (c.strict_validate b).skip_producers_section = c.skip_producers_section ∧
      (c.strict_validate b).skip_name_section = c.skip_name_section ∧
      (c.strict_validate b).preserve_code_transform = c.preserve_code_transform) ∧
    ((c.generate_producers_section b).skip_producers_section = !b ∧
      (c.generate_producers_section b).generate_dwarf = c.generate_dwarf ∧
      (c.generate_producers_section b).generate_synthetic_names_for_anonymous_items =
        c.generate_synthetic_names_for_anonymous_items ∧
      (c.generate_producers_section b).only_stable_features = c.only_stable_features ∧
      (c.generate_producers_section b).skip_strict_validate = c.skip_strict_validate ∧
      (c.generate_producers_section b).skip_name_section = c.skip_name_section ∧
      (c.generate_producers_section b).preserve_code_transform = c.preserve_code_transform) ∧
    ((c.set_only_stable_features b).only_stable_features = b ∧
      (c.set_only_stable_features b).generate_dwarf = c.generate_dwarf ∧
      (c.set_only_stable_features b).generate_synthetic_names_for_anonymous_items =
        c.generate_synthetic_names_for_anonymous_items ∧
      (c.set_only_stable_features b).skip_strict_validate = c.skip_strict_validate ∧
      (c.set_only_stable_features b).skip_producers_section = c.skip_producers_section ∧
      (c.set_only_stable_features b).skip_name_section = c.skip_name_section ∧
      (c.set_only_stable_features b).preserve_code_transform = c.preserve_code_transform) ∧
    ((c.set_preserve_code_transform b).preserve_code_transform = b ∧
      (c.set_preserve_code_transform b).generate_dwarf = c.generate_dwarf ∧
      (c.set_preserve_code_transform b).generate_synthetic_names_for_anonymous_items =
        c.generate_synthetic_names_for_anonymous_items ∧
      (c.set_preserve_code_transform b).only_stable_features = c.only_stable_features ∧
      (c.set_preserve_code_transform b).skip_strict_validate = c.skip_strict_validate ∧
      (c.set_preserve_code_transform b).skip_producers_section = c.skip_producers_section ∧
      (c.set_preserve_code_transform b).skip_name_section = c.skip_name_section) :=
  ⟨⟨rfl, rfl, rfl, rfl, rfl, rfl, rfl⟩, ⟨rfl, rfl, rfl, rfl, rfl, rfl, rfl⟩,
    ⟨rfl, rfl, rfl, rfl, rfl, rfl, rfl⟩, ⟨rfl, rfl, rfl, rfl, rfl, rfl, rfl⟩,
    ⟨rfl, rfl, rfl, rfl, rfl, rfl, rfl⟩, ⟨rfl, rfl, rfl, rfl, rfl, rfl, rfl⟩,
    ⟨rfl, rfl, rfl, rfl, rfl, rfl, rfl⟩⟩

/-- C10 (implicit): cloning a configuration yields one whose seven flags
equal those of the original, and the two values share no mutable state —
under the explicit state passing that models Rust mutation, applying any
of the seven setters to one copy of the pair leaves the other component
untouched, and a parse performed with the clone is unaffected by a later
mutation of the original. -/
theorem config_clone_value_semantics (c : ModuleConfig) (b : Bool) (bytes : Bytes) :
    (c.clone.generate_dwarf = c.generate_dwarf ∧
      c.clone.generate_synthetic_names_for_anonymous_items =
        c.generate_synthetic_names_for_anonymous_items ∧
      c.clone.only_stable_features = c.only_stable_features ∧
      c.clone.skip_strict_validate = c.skip_strict_validate ∧
      c.clone.skip_producers_section = c.skip_producers_section ∧
      c.clone.skip_name_section = c.skip_name_section ∧
      c.clone.preserve_code_transform = c.preserve_code_transform) ∧
    ((mutateSnd (c, c.clone) (fun x => x.set_generate_dwarf b)).1 = c ∧
      (mutateSnd (c, c.clone) (fun x => x.generate_name_section b)).1 = c ∧
      (mutateSnd (c, c.clone) (fun x => x.set_generate_synthetic_names_for_anonymous_items b)).1 = c ∧
      (mutateSnd (c, c.clone) (fun x => x.strict_validate b)).1 = c ∧
      (mutateSnd (c, c.clone) (fun x => x.generate_producers_section b)).1 = c ∧
      (mutateSnd (c, c.clone) (fun x => x.set_only_stable_features b)).1 = c ∧
      (mutateSnd (c, c.clone) (fun x => x.set_preserve_code_transform b)).1 = c) ∧
    ((mutateFst (c, c.clone) (fun x => x.set_generate_dwarf b)).2 = c.clone ∧
      (mutateFst (c, c.clone) (fun x => x.generate_name_section b)).2 = c.clone ∧
      (mutateFst (c, c.clone) (fun x => x.set_generate_synthetic_names_for_anonymous_items b)).2 = c.clone ∧
      (mutateFst (c, c.clone) (fun x => x.strict_validate b)).2 = c.clone ∧
      (mutateFst (c, c.clone) (fun x => x.generate_producers_section b)).2 = c.clone ∧
      (mutateFst (c, c.clone) (fun x => x.set_only_stable_features b)).2 = c.clone ∧
      (mutateFst (c, c.clone) (fun x => x.set_preserve_code_transform b)).2 = c.clone) ∧
    ((parse (mutateFst (c, c.clone) (fun x => x.set_generate_dwarf b)).2 bytes =
        parse c.clone bytes) ∧
      (parse (mutateFst (c, c.clone) (fun x => x.strict_validate b)).2 bytes =
        parse c.clone bytes) ∧
      (parse (mutateFst (c, c.clone) (fun x => x.set_preserve_code_transform b)).2 bytes =
        parse c.clone bytes)) :=
  ⟨⟨rfl, rfl, rfl, rfl, rfl, rfl, rfl⟩, ⟨rfl, rfl, rfl, rfl, rfl, rfl, rfl⟩,
    ⟨rfl, rfl, rfl, rfl, rfl, rfl, rfl⟩, ⟨rfl, rfl, rfl⟩⟩

/-- C9: behavior is a function of the configuration record and the input
bytes alone — two configurations that agree flag for flag give equal parse
results on every byte buffer, and the modules they produce emit equal
bytes; parse consumes the record without returning a changed one, so there
is no shared mutable state between parses. -/
theorem parse_deterministic_in_config (c₁ c₂ : ModuleConfig) (bytes : Bytes)
    (h : c₁.generate_dwarf = c₂.generate_dwarf ∧
      c₁.generate_synthetic_names_for_anonymous_items =
        c₂.generate_synthetic_names_for_anonymous_items ∧
      c₁.only_stable_features = c₂.only_stable_features ∧
      c₁.skip_strict_validate = c₂.skip_strict_validate ∧
      c₁.skip_producers_section = c₂.skip_producers_section ∧
      c₁.skip_name_section = c₂.skip_name_section ∧
      c₁.preserve_code_transform = c₂.preserve_code_transform) :
    parse c₁ bytes = parse c₂ bytes ∧
    (parse c₁ bytes).map Module.emit_wasm = (parse c₂ bytes).map Module.emit_wasm := by
  obtain ⟨h₁, h₂, h₃, h₄, h₅, h₆, h₇⟩ := h
  have hc : c₁ = c₂ := by
    cases c₁
    cases c₂
    simp only [ModuleConfig.mk.injEq]
    exact ⟨h₁, h₂, h₃, h₄, h₅, h₆, h₇⟩
  subst hc
  exact ⟨rfl, rfl⟩

/-- Witness for C9: the default configuration and the configuration
obtained by switching strict validation off and back on agree flag for
flag, and parsing the fixed header bytes with either gives the same
result. -/
theorem parse_deterministic_in_config_witness :
    parse ModuleConfig.new wasmHeader =
      parse ((ModuleConfig.new.strict_validate false).strict_validate true) wasmHeader :=
  (parse_deterministic_in_config ModuleConfig.new
    ((ModuleConfig.new.strict_validate false).strict_validate true) wasmHeader
    (by decide)).1

/-- C1: the unknown-custom-section round trip.  For the module holding one
custom section named hello with payload Hello, World! and the producers
section disabled, emitting it to bytes and re-parsing those bytes with the
same configuration succeeds; remove_raw on the name hello returns a raw
byte-holder whose payload equals the original payload; re-adding a section
with that payload and emitting again reproduces the first emitted buffer
byte for byte. -/
theorem custom_section_round_trip :
    ∃ m₂ raw reg₂,
      parse helloConfig helloWasm = .ok m₂ ∧
      m₂.customs.remove_raw "hello" = some (raw, reg₂) ∧
      raw.data = helloPayload ∧
      Module.emit_wasm { m₂ with customs := (reg₂.add ⟨"hello", raw.data⟩).2 } = helloWasm := by
  refine ⟨{ config := helloConfig,
            customs := { next_id := 1, entries := [(0, ⟨"hello", helloPayload⟩)] },
            code := [], parsed_from_bytes := true },
          ⟨"hello", helloPayload⟩,
          { next_id := 1, entries := [] },
          ?_, ?_, ?_, ?_⟩ <;> decide

/-- Helper for C5: adding a list of sections appends them to the entry
list, paired with the consecutive fresh ids the adds returned. -/
theorem addAll_entries (secs : List RawSection) :
    ∀ r : CustomSectionRegistry,
      (addAll r secs).entries =
        r.entries ++ List.zip (List.range' r.next_id secs.length) secs := by
  induction secs with
  | nil => intro r; simp [addAll]
  | cons s rest ih =>
    intro r
    have hr := ih (r.add s).2
    simp only [addAll, CustomSectionRegistry.add] at hr ⊢
    rw [hr]
    simp [List.range'_succ, List.zip_cons_cons]

/-- C5: iter() yields the (id, section) entries in exactly the order the
sections were added — for every starting registry (in particular the one a
decode produced, since the decoder stores decoded sections through the same
add operation) and every sequence of add operations, iteration yields the
prior entries followed by the new sections in add order, each paired with
the consecutive fresh id its add returned. -/
theorem registry_iteration_order (r : CustomSectionRegistry) (secs : List RawSection) :
    (addAll r secs).iter =
      r.iter ++ List.zip (List.range' r.next_id secs.length) secs :=
  addAll_entries secs r

/-- C7: decoding is total and structured — for every configuration and
every input byte buffer, parse returns either a Module or a structured
error value (the model is a total Lean function, so no panic is possible),
and every returned error carries a non-empty chain of causes for the
caller to report. -/
theorem parse_total_structured_errors (cfg : ModuleConfig) (bytes : Bytes) :
    (∃ m, parse cfg bytes = .ok m) ∨
    (∃ e, parse cfg bytes = .error e ∧ e.chain ≠ []) := by
  cases h : parse cfg bytes with
  | ok m => exact Or.inl ⟨m, rfl⟩
  | error e =>
    refine Or.inr ⟨e, rfl, ?_⟩
    simp [ParseError.chain]

/-- The input coordinates the encoder records are exactly the original
offsets carried by the instruction stream, in order, independent of the
output position. -/
theorem recordTransform_map_fst (code : List Instr) :
    ∀ out, (recordTransform out code).map Prod.fst =
      code.filterMap (fun i => i.input_offset) := by
  induction code with
  | nil => intro out; simp [recordTransform]
  | cons i rest ih =>
    intro out
    cases h : i.input_offset with
    | none => simp [recordTransform, h, List.filterMap_cons, ih]
    | some off => simp [recordTransform, h, List.filterMap_cons, ih]

/-- Every output offset the encoder records is at least the position the
walk started from. -/
theorem recordTransform_snd_ge (code : List Instr) :
    ∀ out q, q ∈ recordTransform out code → out ≤ q.2 := by
  induction code with
  | nil => intro out q hq; simp [recordTransform] at hq
  | cons i rest ih =>
    intro out q hq
    cases h : i.input_offset with
    | none =>
      simp only [recordTransform, h] at hq
      exact le_trans (Nat.le_add_right out i.size) (ih (out + i.size) q hq)
    | some off =>
      simp only [recordTransform, h, List.mem_cons] at hq
      rcases hq with hq | hq
      · simp [hq]
      · exact le_trans (Nat.le_add_right out i.size) (ih (out + i.size) q hq)

/-- The output coordinates the encoder records are non-decreasing in
recording order. -/
theorem recordTransform_snd_pairwise (code : List Instr) :
    ∀ out, List.Pairwise (fun p q => p.2 ≤ q.2) (recordTransform out code) := by
  induction code with
  | nil => intro out; simp [recordTransform]
  | cons i rest ih =>
    intro out
    cases h : i.input_offset with
    | none => simp only [recordTransform, h]; exact ih (out + i.size)
    | some off =>
      simp only [recordTransform, h]
      refine List.Pairwise.cons ?_ (ih (out + i.size))
      intro q hq
      exact le_trans (Nat.le_add_right out i.size) (recordTransform_snd_ge rest (out + i.size) q hq)

/-- The hook invocations of the custom-section emit loop are exactly one
per registered entry, in iteration order, each receiving the delivered
transform. -/
theorem emitLoop_hookCalls (t : List (Nat × Nat)) (es : List (Nat × RawSection)) :
    hookCalls (emitLoop t es) = es.map (fun p => (p.1, t)) := by
  induction es with
  | nil => simp [emitLoop, hookCalls]
  | cons p rest ih => simp [emitLoop, hookCalls, ih]

/-- In the custom-section emit loop every registered entry receives its
hook call strictly before its bytes are appended. -/
theorem emitLoop_hookBeforeAppend (t : List (Nat × Nat)) (es : List (Nat × RawSection)) :
    ∀ p ∈ es, hookBeforeAppend (emitLoop t es) p.1 t := by
  induction es with
  | nil => intro p hp; simp at hp
  | cons q rest ih =>
    intro p hp
    rcases List.mem_cons.mp hp with hp | hp
    · subst hp
      exact ⟨[], [], emitLoop t rest, rfl⟩
    · obtain ⟨l₁, l₂, l₃, hl⟩ := ih p hp
      exact ⟨EmitEvent.hook q.1 t :: EmitEvent.append q.1 :: l₁, l₂, l₃, by simp [emitLoop, hl]⟩

/-- The original offsets carried by a parsed code body are the consecutive
layout offsets of its instruction sizes. -/
theorem parsedCode_filterMap (sizes : List Nat) :
    ∀ base, (parsedCode base sizes).filterMap (fun i => i.input_offset) =
      offsetList base sizes := by
  induction sizes with
  | nil => intro base; simp [parsedCode, offsetList]
  | cons s rest ih => intro base; simp [parsedCode, offsetList, List.filterMap_cons, ih]

/-- Every layout offset is at least the base it starts from. -/
theorem offsetList_ge (sizes : List Nat) :
    ∀ base x, x ∈ offsetList base sizes → base ≤ x := by
  induction sizes with
  | nil => intro base x hx; simp [offsetList] at hx
  | cons s rest ih =>
    intro base x hx
    simp only [offsetList, List.mem_cons] at hx
    rcases hx with hx | hx
    · omega
    · exact le_trans (Nat.le_add_right base s) (ih (base + s) x hx)

/-- Consecutive layout offsets are non-decreasing. -/
theorem offsetList_pairwise (sizes : List Nat) :
    ∀ base, List.Pairwise (· ≤ ·) (offsetList base sizes) := by
  induction sizes with
  | nil => intro base; simp [offsetList]
  | cons s rest ih =>
    intro base
    simp only [offsetList]
    refine List.Pairwise.cons ?_ (ih (base + s))
    intro x hx
    exact le_trans (Nat.le_add_right base s) (offsetList_ge rest (base + s) x hx)

/-- A parsed code body with at least one instruction yields at least one
recorded pair. -/
theorem recordTransform_parsedCode_ne_nil (sizes : List Nat) (hs : sizes ≠ [])
    (out base : Nat) : recordTransform out (parsedCode base sizes) ≠ [] := by
  cases sizes with
  | nil => exact absurd rfl hs
  | cons s rest => simp [parsedCode, recordTransform]

/-- C4: whenever preserve_code_transform is enabled and the module parsed
from bytes contains code, the Code Transform produced by emitting is
non-empty and doubly monotone — the hypotheses state exactly what parsing
guarantees for the code stream: the original offsets carried by the
instructions are non-decreasing in stream order (parsing lays instructions
out consecutively and builder insertion never reorders the survivors) and
at least one instruction of the parsed code remains. -/
theorem transform_monotone_nonempty (m : Module)
    (hp : m.config.preserve_code_transform = true)
    (hb : m.parsed_from_bytes = true)
    (hmono : List.Pairwise (· ≤ ·) (m.code.filterMap (fun i => i.input_offset)))
    (hex : m.code.filterMap (fun i => i.input_offset) ≠ []) :
    m.codeTransform ≠ [] ∧
    List.Pairwise (fun p q : Nat × Nat => p.1 ≤ q.1 ∧ p.2 ≤ q.2) m.codeTransform := by
  have ht : m.codeTransform = recordTransform 0 m.code := by
    simp [Module.codeTransform, hp, hb]
  constructor
  · rw [ht]
    intro hnil
    apply hex
    rw [← recordTransform_map_fst m.code 0, hnil]
    rfl
  · rw [ht]
    have h1 : List.Pairwise (· ≤ ·) ((recordTransform 0 m.code).map Prod.fst) := by
      rw [recordTransform_map_fst]
      exact hmono
    have h2 := List.pairwise_map.mp h1
    have h3 := recordTransform_snd_pairwise m.code 0
    exact h2.and h3

/-- Witness for C4: a module parsed from bytes whose code is two
instructions of sizes three and two laid out from offset zero, with the
transform-preservation flag on, yields a non-empty doubly monotone
transform. -/
theorem transform_monotone_nonempty_witness :
    (({ config := { preserve_code_transform := true }, customs := {},
        code := parsedCode 0 [3, 2], parsed_from_bytes := true } : Module).config.preserve_code_transform = true ∧
      List.Pairwise (· ≤ ·)
        ((parsedCode 0 [3, 2]).filterMap (fun i => i.input_offset)) ∧
      (parsedCode 0 [3, 2]).filterMap (fun i => i.input_offset) ≠ []) ∧
    (({ config := { preserve_code_transform := true }, customs := {},
        code := parsedCode 0 [3, 2], parsed_from_bytes := true } : Module).codeTransform ≠ [] ∧
      List.Pairwise (fun p q : Nat × Nat => p.1 ≤ q.1 ∧ p.2 ≤ q.2)
        ({ config := { preserve_code_transform := true }, customs := {},
           code := parsedCode 0 [3, 2], parsed_from_bytes := true } : Module).codeTransform) :=
  ⟨⟨rfl, by decide, by decide⟩,
    transform_monotone_nonempty
      { config := { preserve_code_transform := true }, customs := {},
        code := parsedCode 0 [3, 2], parsed_from_bytes := true }
      rfl rfl (by decide) (by decide)⟩

/-- C2: for a module parsed from bytes with preserve_code_transform
enabled whose local function body is non-empty, after one instruction is
inserted at the start of the body, emitting delivers a non-empty transform
to apply_code_transform exactly once on every registered custom section —
the hook-call log equals the registry iteration order, each call carrying
the transform — and every section receives its hook call before its bytes
are appended to the output. -/
theorem transform_hook_invocation (cfg : ModuleConfig) (reg : CustomSectionRegistry)
    (base k : Nat) (sizes : List Nat) (m : Module)
    (hm : m = { config := cfg, customs := reg,
                code := ⟨k, none⟩ :: parsedCode base sizes, parsed_from_bytes := true })
    (hp : cfg.preserve_code_transform = true)
    (hs : sizes ≠ []) :
    m.codeTransform ≠ [] ∧
    hookCalls m.emitEvents = reg.iter.map (fun p => (p.1, m.codeTransform)) ∧
    ∀ p ∈ reg.iter, hookBeforeAppend m.emitEvents p.1 m.codeTransform := by
  subst hm
  have ht : Module.codeTransform
      { config := cfg, customs := reg,
        code := ⟨k, none⟩ :: parsedCode base sizes, parsed_from_bytes := true } =
      recordTransform k (parsedCode base sizes) := by
    simp [Module.codeTransform, hp, recordTransform]
  have hne : recordTransform k (parsedCode base sizes) ≠ [] :=
    recordTransform_parsedCode_ne_nil sizes hs k base
  have hie : (recordTransform k (parsedCode base sizes)).isEmpty = false := by
    cases hcase : recordTransform k (parsedCode base sizes) with
    | nil => exact absurd hcase hne
    | cons a l => rfl
  have hev : Module.emitEvents
      { config := cfg, customs := reg,
        code := ⟨k, none⟩ :: parsedCode base sizes, parsed_from_bytes := true } =
      emitLoop (recordTransform k (parsedCode base sizes)) reg.entries := by
    simp [Module.emitEvents, ht, hie]
  refine ⟨?_, ?_, ?_⟩
  · rw [ht]
    exact hne
  · rw [hev, ht]
    exact emitLoop_hookCalls (recordTransform k (parsedCode base sizes)) reg.entries
  · intro p hp'
    rw [hev, ht]
    exact emitLoop_hookBeforeAppend (recordTransform k (parsedCode base sizes)) reg.entries p hp'

/-- Witness for C2: a two-section registry on a module parsed from a body
of one three-byte instruction, with a three-byte instruction inserted at
the start, receives exactly one hook call per section, in order, each
before its append, with a non-empty transform. -/
theorem transform_hook_invocation_witness :
    (({ preserve_code_transform := true } : ModuleConfig).preserve_code_transform = true ∧
      ([3] : List Nat) ≠ []) ∧
    ((Module.mk { preserve_code_transform := true }
        (CustomSectionRegistry.mk 2 [(0, ⟨"check-code-transform", []⟩), (1, ⟨"other", [1]⟩)])
        (⟨3, none⟩ :: parsedCode 0 [3]) true).codeTransform ≠ [] ∧
      hookCalls (Module.mk { preserve_code_transform := true }
          (CustomSectionRegistry.mk 2 [(0, ⟨"check-code-transform", []⟩), (1, ⟨"other", [1]⟩)])
          (⟨3, none⟩ :: parsedCode 0 [3]) true).emitEvents =
        (CustomSectionRegistry.mk 2
          [(0, ⟨"check-code-transform", []⟩), (1, ⟨"other", [1]⟩)]).iter.map
          (fun p => (p.1,
            (Module.mk { preserve_code_transform := true }
              (CustomSectionRegistry.mk 2 [(0, ⟨"check-code-transform", []⟩), (1, ⟨"other", [1]⟩)])
              (⟨3, none⟩ :: parsedCode 0 [3]) true).codeTransform)) ∧
      ∀ p ∈ (CustomSectionRegistry.mk 2
          [(0, ⟨"check-code-transform", []⟩), (1, ⟨"other", [1]⟩)]).iter,
        hookBeforeAppend
          (Module.mk { preserve_code_transform := true }
            (CustomSectionRegistry.mk 2 [(0, ⟨"check-code-transform", []⟩), (1, ⟨"other", [1]⟩)])
            (⟨3, none⟩ :: parsedCode 0 [3]) true).emitEvents p.1
          (Module.mk { preserve_code_transform := true }
            (CustomSectionRegistry.mk 2 [(0, ⟨"check-code-transform", []⟩), (1, ⟨"other", [1]⟩)])
            (⟨3, none⟩ :: parsedCode 0 [3]) true).codeTransform) :=
  ⟨⟨rfl, by decide⟩,
    transform_hook_invocation { preserve_code_transform := true }
      (CustomSectionRegistry.mk 2 [(0, ⟨"check-code-transform", []⟩), (1, ⟨"other", [1]⟩)])
      0 3 [3] _ rfl rfl (by decide)⟩
